import Mathlib

/-!
Shallow embedding of the 3-Color-Approximation repository: the supervisor
(coordinator) and generator (worker) programs, their circular-buffer
protocol over POSIX semaphores, and the 3-coloring scan.

Sources: src/supervisormain.c, src/sharedmem.c, src/unnamed/part_000
(sharedmem.h), src/unnamed/part_001 (generatormain.c).
-/

namespace ThreeColor

/-- MAX_DATA from sharedmem.h: the circular buffer capacity (BUFFER_CAPACITY). -/
def MAX_DATA : Nat := 128

/-- MAX_SOLUTION_EDGES from sharedmem.h. -/
def MAX_SOLUTION_EDGES : Nat := 12

/-- Size in bytes of an object pointer on the build target (gcc, LP64 Linux
per the makefile). In writeBuff and readBuff the array parameters
`removedEdge edges_to_write[]` and `removedEdge edges_to_read[]` decay to
pointers, so `sizeof(edges_to_write)` and `sizeof(edges_to_read)` evaluate
to this value, not to MAX_DATA. -/
def PTR_SIZE : Nat := 8

/-- The edge struct of sharedmem.h: a pair of int vertex identifiers. -/
structure Edge where
  source : Int
  destination : Int
deriving DecidableEq, Repr

/-- The removedEdge struct of sharedmem.h: a count and the removed edges
(at most MAX_SOLUTION_EDGES of them in the C array). -/
structure RemovedEdge where
  numOfEdges : Int
  edges : List Edge
deriving DecidableEq, Repr

/-- Swap of an edge's endpoints, as solveColorProblem records them. -/
def swapEdge (e : Edge) : Edge :=
  { source := e.destination, destination := e.source }

/-- solveColorProblem from sharedmem.c lines 85-99: scan the input edges in
order; whenever both endpoints carry the same color, append the edge to the
removed list with `removed.destination = source` and
`removed.source = destination`. The C writes into `removed_edges` with a
running index `rem_count` and finally stores `rem_count` into
`*removed_edges_count`; the list returned here is that array in order, and
its length is that count. `color_indices` is the color lookup
(`color_indices[v]`). -/
def solveColorProblem (color_indices : Int → Int) : List Edge → List Edge
  | [] => []
  | e :: es =>
    if color_indices e.source = color_indices e.destination then
      { source := e.destination, destination := e.source } :: solveColorProblem color_indices es
    else
      solveColorProblem color_indices es

/-- The first argument-scan loop of generator main (generatormain.c lines
107-123): `max` starts at -1 and each iteration assigns (it does not
maximize) the larger endpoint of that edge, so only the last edge's larger
endpoint survives. -/
def computeMax (args : List (Int × Int)) : Int :=
  args.foldl (fun _ e => if e.1 > e.2 then e.1 else e.2) (-1)

/-- numOfVertices as generator main computes it (line 125): computeMax + 1.
It is the length of the `color_indices` VLA indexed by solveColorProblem. -/
def numOfVertices (args : List (Int × Int)) : Int :=
  computeMax args + 1

/-- All vertex identifiers occurring in the parsed edge list. -/
def vertexIds (args : List (Int × Int)) : List Int :=
  args.foldr (fun e acc => e.1 :: e.2 :: acc) []

/-- Cursor advance after a completed buffer operation, as both writeBuff
(generatormain.c lines 62-63, `wr_pos += 1; wr_pos %= sizeof(edges_to_write)`)
and readBuff (supervisormain.c lines 105-106) compute it: plus one modulo
the size of a pointer-decayed array parameter, PTR_SIZE = 8. -/
def advanceCursor (pos : Nat) : Nat :=
  (pos + 1) % PTR_SIZE

/-- Modelled from the spec: the cursor advance the specification states,
`cursor = (cursor + 1) mod BUFFER_CAPACITY` (spec section 4.2), for
comparison with advanceCursor. -/
def advanceCursorClaim (pos : Nat) : Nat :=
  (pos + 1) % MAX_DATA

/-- readBuff from supervisormain.c lines 101-108: acquire used_sem, read
`edges_to_read[rd_pos].numOfEdges`, release free_sem, then advance rd_pos.
Returns the count read and the advanced cursor; the semaphore operations
are modelled separately (BufStep, readBuffChecked). -/
def readBuff (buf : Nat → RemovedEdge) (rd_pos : Nat) : Int × Nat :=
  ((buf rd_pos).numOfEdges, advanceCursor rd_pos)

/-- writeBuff from generatormain.c lines 54-64: acquire free_sem, store the
count and the first `val` removed edges into slot wr_pos, release used_sem,
advance wr_pos. Returns the updated buffer and the advanced cursor. -/
def writeBuff (val : Int) (removed : List Edge) (buf : Nat → RemovedEdge)
    (wr_pos : Nat) : (Nat → RemovedEdge) × Nat :=
  (Function.update buf wr_pos { numOfEdges := val, edges := removed.take val.toNat },
    advanceCursor wr_pos)

/-- One improved candidate as supervisor main reports it (supervisormain.c
lines 139-150): readBuff returns the count `temp`, and the printed edges
are then taken from `myshm->removed_edges[rd_pos]` with rd_pos already
advanced by readBuff, that is from the slot after the one whose count was
read. Result: the printed count and the printed edge list. -/
def printedSolution (buf : Nat → RemovedEdge) (rd_pos : Nat) : Int × List Edge :=
  let r := readBuff buf rd_pos
  (r.1, (buf r.2).edges.take r.1.toNat)

/-- A concrete buffer: slot 0 holds one removed edge 0-1, slot 1 holds one
removed edge 2-3, every other slot is empty. -/
def demoBuf : Nat → RemovedEdge
  | 0 => { numOfEdges := 1, edges := [{ source := 0, destination := 1 }] }
  | 1 => { numOfEdges := 1, edges := [{ source := 2, destination := 3 }] }
  | _ => { numOfEdges := 0, edges := [] }

/-- Values of the three named semaphores. -/
structure SemState where
  used : Nat
  free : Nat
  mutex : Nat
deriving DecidableEq, Repr

/-- initializeSemaphores from supervisormain.c lines 72-87: sem_open of
USED_SEM with initial value 0, FREE_SEM with MAX_DATA, MUTEX_SEM with 1. -/
def initializeSemaphores : SemState :=
  { used := 0, free := MAX_DATA, mutex := 1 }

/-- The scalar fields of the myshm struct (sharedmem.h): `state` is the
termination flag (1 means terminate), `generator_count` the number of
registered generators. -/
structure MyShm where
  state : Int
  generator_count : Int
deriving DecidableEq, Repr

/-- The shared-memory object right after createSHMFileDescriptor
(sharedmem.c lines 58-68): a newly created POSIX shm object extended by
ftruncate is zero-filled, so both fields read 0. -/
def freshShm : MyShm :=
  { state := 0, generator_count := 0 }

/-- End of the coordinator's initialization (supervisormain.c main lines
127-135): the three semaphores created with their initial values, the fresh
shm object mapped, and `myshm->generator_count = 0` assigned explicitly. -/
def coordinatorInit : SemState × MyShm :=
  (initializeSemaphores, { freshShm with generator_count := 0 })

/-- Operations of the generator process relevant to the mutex discipline. -/
inductive WOp where
  | postMutex
  | waitMutex
  | incrGen
  | checkState
  | writeOp
deriving DecidableEq, Repr

/-- The generator's registration step (generatormain.c lines 150-152), in
source order: `sem_post(mutex_sem); myshm->generator_count += 1;
sem_wait(mutex_sem);`. -/
def registrationTrace : List WOp :=
  [WOp.postMutex, WOp.incrGen, WOp.waitMutex]

/-- One produce-loop iteration that publishes (generatormain.c lines
156-161): the while condition reads `myshm->state`, then
`sem_post(mutex_sem); writeBuff(...); sem_wait(mutex_sem);`. The coloring
calls that follow touch no shared state and are omitted. -/
def produceIter : List WOp :=
  [WOp.checkState, WOp.postMutex, WOp.writeOp, WOp.waitMutex]

/-- The generator's operation trace from registration through k publishing
iterations and the final while-condition check that observes state = 1 and
leaves the loop. -/
def workerTrace (k : Nat) : List WOp :=
  registrationTrace ++ (List.replicate k produceIter).flatten ++ [WOp.checkState]

/-- Value of the mutex semaphore (initialized to 1 by the supervisor) after
the generator alone performs the operations of t. -/
def mutexValue (t : List WOp) : Int :=
  1 + (t.count WOp.postMutex : Int) - (t.count WOp.waitMutex : Int)

/-- Whether the generator holds the mutual-exclusion lock after performing
the prefix t: it holds the lock when its sem_wait calls exceed its sem_post
calls, leaving the semaphore at 0 for every other process. -/
def holdsMutex (t : List WOp) : Bool :=
  t.count WOp.waitMutex > t.count WOp.postMutex

/-- Every occurrence of op in t happens while the generator holds the
mutex. -/
def opUnderMutex (op : WOp) (t : List WOp) : Prop :=
  ∀ i : Fin t.length, t.get i = op → holdsMutex (t.take i.1) = true

instance decOpUnderMutex (op : WOp) (t : List WOp) : Decidable (opUnderMutex op t) := by
  unfold opUnderMutex
  infer_instance

/-- Operations of the supervisor's shutdown sequence. -/
inductive CoordOp where
  | waitMutex
  | setState
  | postMutex
  | readGenCount
  | postFree
deriving DecidableEq, Repr

/-- The shutdown fan-out loop (supervisormain.c lines 160-162):
`for (i = 0; i < myshm->generator_count; i++) sem_post(free_sem);`.
Each loop test re-reads `myshm->generator_count` from shared memory; with n
iterations remaining the test reads the count and a post follows; the final
test reads the count once more and exits. -/
def postLoop : Nat → List CoordOp
  | 0 => [CoordOp.readGenCount]
  | n + 1 => CoordOp.readGenCount :: CoordOp.postFree :: postLoop n

/-- The supervisor's shutdown sequence (supervisormain.c lines 156-162) with
the shared generator_count stable at n: `sem_wait(mutex_sem);
myshm->state = 1; sem_post(mutex_sem);` then the fan-out loop. -/
def shutdownTrace (n : Nat) : List CoordOp :=
  CoordOp.waitMutex :: CoordOp.setState :: CoordOp.postMutex :: postLoop n

/-- The claim's reading discipline for the fan-out bound: generator_count is
read exactly once, and that read happens while the supervisor holds the
mutex (its waits on the prefix exceed its posts). -/
def readsGenOnceUnderMutex (t : List CoordOp) : Prop :=
  t.count CoordOp.readGenCount = 1 ∧
    ∀ i : Fin t.length, t.get i = CoordOp.readGenCount →
      (t.take i.1).count CoordOp.waitMutex > (t.take i.1).count CoordOp.postMutex

instance decReadsGenOnce (t : List CoordOp) : Decidable (readsGenOnceUnderMutex t) := by
  unfold readsGenOnceUnderMutex
  infer_instance

/-- Result of a sem_wait or sem_post call. -/
inductive SemResult where
  | ok
  | err
deriving DecidableEq, Repr

/-- Outcome of a supervisor read: either the normal count-and-cursor result,
or termination with a diagnostic. -/
inductive ProcOutcome where
  | normal (count : Int) (newPos : Nat)
  | fatal (diag : String)
deriving DecidableEq, Repr

/-- Outcome of a generator write: either the normal advanced cursor, or
termination with a diagnostic. -/
inductive WriteOutcome where
  | normalWrite (newPos : Nat)
  | fatalWrite (diag : String)
deriving DecidableEq, Repr

/-- readBuff with the return values of its sem_wait(used_sem) and
sem_post(free_sem) calls made explicit. The source (supervisormain.c lines
101-108) never tests either value, so the outcome is the same whatever they
are and no diagnostic-and-exit path exists in the function. -/
def readBuffChecked (waitUsedRes postFreeRes : SemResult)
    (buf : Nat → RemovedEdge) (rd_pos : Nat) : ProcOutcome :=
  ProcOutcome.normal (buf rd_pos).numOfEdges (advanceCursor rd_pos)

/-- writeBuff with the return values of its sem_wait(free_sem) and
sem_post(used_sem) calls made explicit. The source (generatormain.c lines
54-64) never tests either value; no diagnostic-and-exit path exists. -/
def writeBuffChecked (waitFreeRes postUsedRes : SemResult)
    (wr_pos : Nat) : WriteOutcome :=
  WriteOutcome.normalWrite (advanceCursor wr_pos)

/-- The supervisor's shutdown sequence with the results of its
sem_wait(mutex_sem), sem_post(mutex_sem) and n sem_post(free_sem) calls made
explicit. The source (supervisormain.c lines 156-162) tests none of them;
the emitted trace is the same, and the diagnostic component is always
none. -/
def shutdownChecked (waitMutexRes postMutexRes : SemResult)
    (postFreeRes : List SemResult) (n : Nat) : List CoordOp × Option String :=
  (shutdownTrace n, none)

/-- closeSemaphores from sharedmem.c lines 14-24: each sem_close result is
tested, and a failure exits with the corresponding diagnostic. -/
def closeSemaphores (rUsed rFree rMutex : SemResult) : Option String :=
  if rUsed = SemResult.err then some "Closing used_sum failed"
  else if rFree = SemResult.err then some "Closing free_sem failed"
  else if rMutex = SemResult.err then some "Closing mutex_sem failed"
  else none

/-- The diagnostic of a read outcome, none when it completed normally. -/
def fatalDiag : ProcOutcome → Option String
  | ProcOutcome.fatal d => some d
  | ProcOutcome.normal _ _ => none

/-- The diagnostic of a write outcome, none when it completed normally. -/
def fatalWriteDiag : WriteOutcome → Option String
  | WriteOutcome.fatalWrite d => some d
  | WriteOutcome.normalWrite _ => none

/-- Global state of the permit discipline: the two counting semaphores, the
phase counters of in-flight operations, and the completed-operation
counters. acqW counts writers past sem_wait(free_sem) that have not yet
stored their slot; wrote counts writers that stored but have not yet
sem_post(used_sem); acqR and readDone are the reader's counterparts. -/
structure BufState where
  free : Nat
  used : Nat
  acqW : Nat
  wrote : Nat
  acqR : Nat
  readDone : Nat
  writes : Nat
  reads : Nat
deriving DecidableEq, Repr

/-- Initial permit state: free_sem = MAX_DATA, used_sem = 0 (supervisormain.c
lines 72-87), nothing in flight, nothing written or read. -/
def bufInit : BufState :=
  { free := MAX_DATA, used := 0, acqW := 0, wrote := 0, acqR := 0,
    readDone := 0, writes := 0, reads := 0 }

/-- One step of the interleaved protocol, at semaphore granularity. The
writer steps decompose writeBuff (generatormain.c lines 54-64:
sem_wait(free_sem), the slot store, sem_post(used_sem)); the reader steps
decompose readBuff (supervisormain.c lines 101-108: sem_wait(used_sem), the
slot read, sem_post(free_sem)). No step inspects a buffer index. -/
inductive BufStep : BufState → BufState → Prop where
  | acquireFree (s : BufState) (h : 0 < s.free) :
      BufStep s { s with free := s.free - 1, acqW := s.acqW + 1 }
  | slotWrite (s : BufState) (h : 0 < s.acqW) :
      BufStep s { s with acqW := s.acqW - 1, wrote := s.wrote + 1, writes := s.writes + 1 }
  | releaseUsed (s : BufState) (h : 0 < s.wrote) :
      BufStep s { s with wrote := s.wrote - 1, used := s.used + 1 }
  | acquireUsed (s : BufState) (h : 0 < s.used) :
      BufStep s { s with used := s.used - 1, acqR := s.acqR + 1 }
  | slotRead (s : BufState) (h : 0 < s.acqR) :
      BufStep s { s with acqR := s.acqR - 1, readDone := s.readDone + 1, reads := s.reads + 1 }
  | releaseFree (s : BufState) (h : 0 < s.readDone) :
      BufStep s { s with readDone := s.readDone - 1, free := s.free + 1 }

/-- States reachable from the initial permit state by any interleaving. -/
def ReachableBuf (s : BufState) : Prop :=
  Relation.ReflTransGen BufStep bufInit s

/-- The permit-count invariant: the permits and in-flight tokens always sum
to MAX_DATA, and writes issued exceed reads completed by exactly the tokens
between the slot store and the slot read. -/
def BufInv (s : BufState) : Prop :=
  s.free + s.acqW + s.wrote + s.used + s.acqR + s.readDone = MAX_DATA ∧
  s.writes = s.reads + (s.wrote + s.used + s.acqR)

lemma bufInv_init : BufInv bufInit := by
  constructor <;> rfl

lemma bufInv_step {s s' : BufState} (hs : BufInv s) (h : BufStep s s') : BufInv s' := by
  obtain ⟨h1, h2⟩ := hs
  cases h <;> constructor <;> simp only [] <;> omega

lemma bufInv_reachable {s : BufState} (h : ReachableBuf s) : BufInv s := by
  induction h with
  | refl => exact bufInv_init
  | tail _ hstep ih => exact bufInv_step ih hstep

lemma postLoop_counts (n : Nat) :
    (postLoop n).count CoordOp.postFree = n ∧
    (postLoop n).count CoordOp.readGenCount = n + 1 ∧
    (postLoop n).count CoordOp.setState = 0 := by
  induction n with
  | zero => refine ⟨?_, ?_, ?_⟩ <;> rfl
  | succ n ih =>
    obtain ⟨i1, i2, i3⟩ := ih
    refine ⟨?_, ?_, ?_⟩ <;> simp [postLoop, List.count_cons, i1, i2, i3]

/-- Claim C1: the claim states that after each completed buffer operation the
cursor is advanced by (cursor + 1) mod BUFFER_CAPACITY = 128; the code
instead wraps at sizeof of a pointer-decayed parameter, 8. At cursor 7 the
code wraps to 0 where the claim requires 8, for the write cursor and the
read cursor alike. -/
theorem c1_cursor_wrap_bug :
    (writeBuff 0 [] demoBuf 7).2 = 0 ∧ (readBuff demoBuf 7).2 = 0 ∧
    advanceCursorClaim 7 = 8 ∧ advanceCursor 7 ≠ advanceCursorClaim 7 := by
  refine ⟨rfl, rfl, rfl, ?_⟩
  decide

/-- Claim C2: the claim states that every printed solution line lists exactly
the K edges of the candidate just read. On a buffer whose slot 0 holds edge
0-1 and whose slot 1 holds edge 2-3, reading at rd_pos = 0 returns count 1
but the printed edge list is slot 1's edge 2-3, because main indexes
removed_edges with rd_pos after readBuff advanced it. -/
theorem c2_print_wrong_slot :
    printedSolution demoBuf 0 = (1, [{ source := 2, destination := 3 }]) ∧
    (demoBuf 0).edges.take 1 = [{ source := 0, destination := 1 }] ∧
    ([{ source := 2, destination := 3 }] : List Edge) ≠
      [{ source := 0, destination := 1 }] := by
  refine ⟨rfl, rfl, ?_⟩
  decide

/-- Claim C3: the claim states that the generator increments generator_count
only while holding the mutual-exclusion lock. The code posts the mutex
before the increment and waits on it after, so during the increment the
generator holds no unmatched acquisition and the semaphore stands at 2:
the increment is not under the lock (it is a single increment, before the
produce loop). -/
theorem c3_incr_not_under_mutex :
    registrationTrace.count WOp.incrGen = 1 ∧
    ¬ opUnderMutex WOp.incrGen registrationTrace ∧
    mutexValue (registrationTrace.take 1) = 2 := by
  refine ⟨rfl, ?_, rfl⟩
  decide

/-- Claim C4: the claim states that the generator's per-iteration check of
the termination flag happens while holding the mutex. In the code's trace
every checkState sits at a point where the generator's sem_wait and
sem_post counts are equal, so it holds no unmatched acquisition and the
mutex value is 1 (free for everyone): the check is not under the mutex. -/
theorem c4_check_not_under_mutex :
    ¬ opUnderMutex WOp.checkState (workerTrace 1) ∧
    mutexValue registrationTrace = 1 ∧
    holdsMutex registrationTrace = false := by
  refine ⟨?_, rfl, rfl⟩
  decide

/-- Claim C5: for every interleaving of permit-guarded writes and reads, the
number of writes issued minus reads completed stays between 0 and
BUFFER_CAPACITY = MAX_DATA, enforced purely by the permit counts. -/
theorem c5_outstanding_bounds (s : BufState) (h : ReachableBuf s) :
    0 ≤ (s.writes : Int) - (s.reads : Int) ∧
      (s.writes : Int) - (s.reads : Int) ≤ (MAX_DATA : Int) := by
  obtain ⟨h1, h2⟩ := bufInv_reachable h
  constructor <;> omega

/-- Witness for C5: the initial state is reachable and satisfies the
bounds. -/
theorem c5_outstanding_bounds_witness :
    ReachableBuf bufInit ∧
      (0 ≤ (bufInit.writes : Int) - (bufInit.reads : Int) ∧
        (bufInit.writes : Int) - (bufInit.reads : Int) ≤ (MAX_DATA : Int)) :=
  ⟨Relation.ReflTransGen.refl, c5_outstanding_bounds bufInit Relation.ReflTransGen.refl⟩

/-- Counterexample for C6: with one registered generator the shutdown
sequence reads generator_count twice, both times after the mutex was
released, so the claim's "read under the mutex once and not re-read
afterwards" fails on the code. -/
theorem c6_reread_counterexample :
    ¬ readsGenOnceUnderMutex (shutdownTrace 1) := by
  decide

/-- Claim C6 as amended: the shutdown sequence sets state = 1 exactly once,
between acquiring and releasing the mutex, and then posts free_sem exactly
generator_count times; generator_count is re-read from shared memory at
each loop test, generator_count + 1 reads in total, all after the mutex was
released. -/
theorem c6_shutdown_amended (n : Nat) :
    (shutdownTrace n).take 3 =
      [CoordOp.waitMutex, CoordOp.setState, CoordOp.postMutex] ∧
    (shutdownTrace n).count CoordOp.setState = 1 ∧
    (shutdownTrace n).count CoordOp.postFree = n ∧
    (shutdownTrace n).count CoordOp.readGenCount = n + 1 := by
  obtain ⟨p1, p2, p3⟩ := postLoop_counts n
  refine ⟨rfl, ?_, ?_, ?_⟩ <;> simp [shutdownTrace, List.count_cons, p1, p2, p3]

/-- Claim C7: at the end of the coordinator's initialization the shared
state is zeroed (generator_count = 0, termination flag = 0) and the three
semaphores hold their initial values used = 0, free = MAX_DATA = 128,
mutex = 1. -/
theorem c7_initial_state :
    coordinatorInit.2.generator_count = 0 ∧ coordinatorInit.2.state = 0 ∧
    coordinatorInit.1.used = 0 ∧ coordinatorInit.1.free = 128 ∧
    coordinatorInit.1.mutex = 1 := by
  refine ⟨rfl, rfl, rfl, rfl, rfl⟩

/-- Counterexample for C8: a failing sem_wait(used_sem) in the supervisor's
read path neither terminates the process nor produces a diagnostic; the
read completes normally with the same result. -/
theorem c8_ignored_counterexample :
    readBuffChecked SemResult.err SemResult.err demoBuf 0 =
      ProcOutcome.normal 1 1 ∧
    fatalDiag (readBuffChecked SemResult.err SemResult.err demoBuf 0) = none := by
  refine ⟨rfl, rfl⟩

/-- Claim C8 as amended: failures of sem_wait and sem_post on used_sem,
free_sem and the mutex in the generator's write path and the supervisor's
read and shutdown paths are silently ignored (the return values are never
tested and execution proceeds normally with no diagnostic); only the
open, close, unlink and map operations are checked, as closeSemaphores
shows by exiting with a diagnostic on any sem_close failure. -/
theorem c8_wait_post_ignored (wU pF wF pU wM pM : SemResult)
    (pFr : List SemResult) (buf : Nat → RemovedEdge) (rd wr n : Nat) :
    fatalDiag (readBuffChecked wU pF buf rd) = none ∧
    fatalWriteDiag (writeBuffChecked wF pU wr) = none ∧
    (shutdownChecked wM pM pFr n).2 = none ∧
    closeSemaphores SemResult.err SemResult.ok SemResult.ok =
      some "Closing used_sum failed" :=
  ⟨rfl, rfl, rfl, rfl⟩

/-- Claim C9: the claim states numOfVertices exceeds every vertex identifier
of the parsed edge list. With arguments 5-6 0-1 the scan keeps only the
last edge's larger endpoint, numOfVertices = 2, yet vertex 6 occurs, so
color_indices has 2 entries and color_indices[5] and color_indices[6] in
solveColorProblem are out of bounds. -/
theorem c9_vertex_bound_violated :
    numOfVertices [(5, 6), (0, 1)] = 2 ∧
    (6 : Int) ∈ vertexIds [(5, 6), (0, 1)] ∧
    ¬ (6 : Int) < numOfVertices [(5, 6), (0, 1)] := by
  refine ⟨rfl, ?_, ?_⟩ <;> decide

/-- Claim C10: for every coloring and input edge list, solveColorProblem
records, in input order, exactly the input edges whose endpoints carry the
same color, each with source and destination swapped; the removed count is
the number of such edges. -/
theorem c10_solve_color_spec (c : Int → Int) (es : List Edge) :
    solveColorProblem c es =
      (es.filter fun e => c e.source = c e.destination).map swapEdge ∧
    (solveColorProblem c es).length =
      (es.filter fun e => c e.source = c e.destination).length := by
  have h : solveColorProblem c es =
      (es.filter fun e => c e.source = c e.destination).map swapEdge := by
    induction es with
    | nil => rfl
    | cons e es ih =>
      by_cases hc : c e.source = c e.destination <;>
        simp [solveColorProblem, List.filter_cons, hc, ih, swapEdge]
  exact ⟨h, by simp [h]⟩

end ThreeColor
